import Mathlib

/-!
Shallow embedding of `modules/pubmaticRtdProvider.ts` (PubMatic RTD provider
of Prebid.js) and verification of the frozen claims about it.

JavaScript values that flow through the module (profile configuration, floor
data, page-level floor config) are modelled by the inductive `JValue`; a JS
object is a list of property assignments, and property lookup returns the
value of the LAST assignment of the key, which matches the semantics of
object-literal spreads (`{...a, ...b}`: a later key wins).  `Option JValue`
models a possibly-`undefined` value (`none` = `undefined`).  Numbers are
modelled by `ℚ`.
-/

namespace PubmaticRtd

/-- JavaScript value model: null, booleans, rational numbers, strings,
arrays, plain objects (assignment lists; last assignment of a key wins on
lookup), and function references (kept abstract by name, used for the
`additionalSchemaFields` derivation functions). -/
inductive JValue : Type where
  | jnull : JValue
  | jbool : Bool → JValue
  | jnum : ℚ → JValue
  | jstr : String → JValue
  | jarr : List JValue → JValue
  | jobj : List (String × JValue) → JValue
  | jfun : String → JValue

/-- A JS object body: the list of its property assignments. -/
abbrev JFields := List (String × JValue)

/-- Property lookup on an object body: value of the last assignment of `k`
(`none` = key absent / `undefined`). -/
def getProp (fs : JFields) (k : String) : Option JValue :=
  match fs with
  | [] => none
  | p :: t => (getProp t k).or (if p.1 == k then some p.2 else none)

/-- Deletion `delete obj[k]`: remove every assignment of `k`. -/
def delProp (fs : JFields) (k : String) : JFields :=
  fs.filter (fun p => p.1 != k)

/-- JS truthiness of a value (`NaN` is not representable in the `ℚ` model;
`0`, `""`, `false`, `null` are falsy, every object/array/function truthy). -/
def truthy : JValue → Bool
  | .jnull => false
  | .jbool b => b
  | .jnum n => n != 0
  | .jstr s => s != ""
  | .jarr _ => true
  | .jobj _ => true
  | .jfun _ => true

/-- Truthiness of a possibly-`undefined` value (`undefined` is falsy). -/
def optTruthy : Option JValue → Bool
  | none => false
  | some v => truthy v

/-- Optional-chaining property access `x?.k`: `undefined` when `x` is
`undefined`/`null`/not an object (property reads on primitives yield
`undefined` for these keys), otherwise object lookup. -/
def jget (x : Option JValue) (k : String) : Option JValue :=
  match x with
  | some (.jobj fs) => getProp fs k
  | _ => none

/-- Predicate `isPlainObject` from `src/utils.js`, on the model: exactly the `jobj`
constructor. -/
def isPlainObjectJ : Option JValue → Bool
  | some (.jobj _) => true
  | _ => false

/-- Predicate `isEmpty` from `src/utils.js` applied to a plain object: no keys. -/
def isEmptyObj : JFields → Bool
  | [] => true
  | _ :: _ => false

-- Basic lookup lemmas used throughout.

theorem getProp_append (a b : JFields) (k : String) :
    getProp (a ++ b) k = ((getProp b k).or (getProp a k)) := by
  induction a with
  | nil => simp [getProp]
  | cons p t ih =>
    simp only [List.cons_append, getProp, List.append_eq, ih, Option.or_assoc]

theorem getProp_singleton_append (a : JFields) (k : String) (v : JValue) :
    getProp (a ++ [(k, v)]) k = some v := by
  rw [getProp_append]
  simp [getProp]

theorem getProp_singleton_append_ne (a : JFields) (k k' : String) (v : JValue)
    (h : k' ≠ k) : getProp (a ++ [(k, v)]) k' = getProp a k' := by
  rw [getProp_append]
  have hkv : getProp [(k, v)] k' = none := by
    have : (k == k') = false := by
      rw [beq_eq_false_iff_ne]
      exact fun h' => h h'.symm
    simp [getProp, this]
  rw [hkv, Option.none_or]

theorem getProp_delProp_ne (fs : JFields) (k k' : String) (h : k' ≠ k) :
    getProp (delProp fs k) k' = getProp fs k' := by
  induction fs with
  | nil => rfl
  | cons p t ih =>
    rw [delProp, List.filter_cons]
    by_cases hp : p.1 = k
    · have hc : (p.1 != k) = false := by simp [hp]
      have hb : (p.1 == k') = false := by
        rw [beq_eq_false_iff_ne, hp]
        exact fun h' => h h'.symm
      rw [hc, if_neg (by simp)]
      rw [delProp] at ih
      rw [ih, getProp, hb, if_neg (by simp), Option.or_none]
    · have hc : (p.1 != k) = true := by simp [hp]
      rw [hc, if_pos rfl, getProp, getProp]
      rw [delProp] at ih
      rw [ih]

theorem getProp_delProp_self (fs : JFields) (k : String) :
    getProp (delProp fs k) k = none := by
  induction fs with
  | nil => rfl
  | cons p t ih =>
    rw [delProp, List.filter_cons]
    rw [delProp] at ih
    by_cases hp : p.1 = k
    · have hc : (p.1 != k) = false := by simp [hp]
      rw [hc, if_neg (by simp)]
      exact ih
    · have hc : (p.1 != k) = true := by simp [hp]
      have hb : (p.1 == k) = false := by simp [hp]
      rw [hc, if_pos rfl, getProp, ih, hb, if_neg (by simp), Option.or_none]

/-!
## `getCurrentTimeOfDay`

The source reads `new Date().getHours()` (a local hour in `0..23`) and maps
it through a conditional cascade to one of the `TIME_OF_DAY_VALUES`
strings; the ambient hour is the explicit argument here.
-/

/-- Function `getCurrentTimeOfDay` from the source, with the ambient local hour made
explicit. -/
def getCurrentTimeOfDay (currentHour : Nat) : String :=
  if currentHour < 5 then "night"
  else if currentHour < 12 then "morning"
  else if currentHour < 17 then "afternoon"
  else if currentHour < 19 then "evening"
  else "night"

/-!
## `withTimeout`

A promise is modelled by its eventual behaviour: either it stays pending
forever, or it settles at an absolute time `t` (ms) with a resolution or a
rejection.  `withTimeout(promise, ms)` either returns the original promise
(when `ms <= 0`) or builds a new promise from
`Promise.race([promise.finally(...), timeoutPromise]).catch(...)`: the race
is won by `promise` when it settles strictly before `ms` (the model gives a
tie to the timer), the timer resolves the `undefined` sentinel at `ms`, and
the trailing `.catch` converts a winning rejection into the `undefined`
sentinel.  The sentinel is `none`; a value is `some v`.
-/

/-- The settled state of a promise: resolved with a value or rejected with
an error. -/
inductive Settled (T : Type) : Type where
  | resolved (v : T)
  | rejected (err : String)

/-- A promise, by its eventual behaviour: forever pending, or settled at
time `t` ms. -/
inductive JSPromise (T : Type) : Type where
  | pending
  | settled (t : Nat) (o : Settled T)

/-- What `withTimeout` returns: the original promise unmodified (the
`ms <= 0` early return) or a freshly built race promise. -/
inductive TimeoutResult (T : Type) : Type where
  | original (p : JSPromise T)
  | wrapped (q : JSPromise (Option T))

/-- Function `withTimeout` from the source.  `ms <= 0` returns the original promise;
otherwise the race: the wrapped promise wins when it settles strictly
before `ms` (its rejection then caught into the `none` sentinel by the
`.catch`), else the timer resolves `none` at time `ms`. -/
def withTimeout {T : Type} (p : JSPromise T) (ms : Int) : TimeoutResult T :=
  if ms ≤ 0 then .original p
  else .wrapped (match p with
    | .pending => .settled ms.toNat (.resolved none)
    | .settled t o =>
      if (t : Int) < ms then
        .settled t (match o with
          | .resolved v => .resolved (some v)
          | .rejected _ => .resolved none)
      else .settled ms.toNat (.resolved none))

/-- Whether the promise `withTimeout` hands back (original or wrapped)
rejects. -/
def TimeoutResult.isRejection {T : Type} : TimeoutResult T → Bool
  | .original (.settled _ (.rejected _)) => true
  | .original _ => false
  | .wrapped (.settled _ (.rejected _)) => true
  | .wrapped _ => false

/-!
## `fetchData`

The network is modelled by an oracle giving the outcome of the `i`-th
attempt: a parsed JSON body on success, or a single failure case covering
network errors, non-ok HTTP statuses (the code throws on `!response.ok`)
and JSON parse errors — all of which land in the same `catch` block.  The
source recurses with `retries - 1` after a fixed 1000 ms wait and resolves
`undefined` once retries are exhausted; it never rejects, which the model
reflects by being a total function into `FetchRun`.
-/

/-- Outcome of one fetch attempt. -/
inductive FetchOutcome : Type where
  | success (body : JValue)
  | failure

/-- Result of a whole `fetchData` call: the resolved value (`none` =
`undefined`), the number of attempts performed, and the total time spent in
the fixed 1000 ms inter-attempt waits. -/
structure FetchRun : Type where
  result : Option JValue
  attempts : Nat
  delayMs : Nat

/-- Function `fetchData` from the source, over the attempt oracle; `attempt` is the
index of the current attempt and `retries` the remaining retry budget
(source default: 2). -/
def fetchData (oracle : Nat → FetchOutcome) (attempt : Nat) (retries : Nat) :
    FetchRun :=
  match oracle attempt with
  | .success v => ⟨some v, 1, 0⟩
  | .failure =>
    match retries with
    | 0 => ⟨none, 1, 0⟩
    | r + 1 =>
      let rest := fetchData oracle (attempt + 1) r
      ⟨rest.result, rest.attempts + 1, rest.delayMs + 1000⟩

/-!
## `getFloorsConfig`

`getFloorsConfig(floorsData, profileConfigs)` also reads the page-level
floor configuration `conf.getConfig('floors')`, made an explicit argument
here (`none` = nothing configured).  Object spreads append assignment
lists; spreading a non-object value contributes no string-keyed properties
(index keys produced by spreading arrays/strings are not modelled — no
claim exercises them, and the profile payloads in question are objects).
The in-place `finalFloorsData.skipRate = ...` assignment is modelled by
`setPropJ`, which on a non-object target leaves the value unchanged (in the
source that assignment on a primitive would throw inside the caller's
`try`; no claim exercises a primitive floors payload).
-/

/-- Whether `v` is `null` or `undefined` (the `??` test). -/
def nullish : Option JValue → Bool
  | none => true
  | some .jnull => true
  | some _ => false

/-- The string-keyed properties contributed by spreading a value into an
object literal. -/
def spreadFields : Option JValue → JFields
  | some (.jobj fs) => fs
  | _ => []

/-- Property assignment `v[k] = x` (last-wins append on objects). -/
def setPropJ (v : JValue) (k : String) (x : JValue) : JValue :=
  match v with
  | .jobj fs => .jobj (fs ++ [(k, x)])
  | other => other

/-- Constant `defaultValueTemplate` from the source. -/
def defaultValueTemplate : JFields :=
  [("currency", .jstr "USD"), ("skipRate", .jnum 0),
   ("schema", .jobj [("fields", .jarr [.jstr "mediaType", .jstr "size"])])]

/-- The `additionalSchemaFields` object of derivation-function references
built in `getFloorsConfig`. -/
def additionalSchemaFields : JValue :=
  .jobj [("deviceType", .jfun "getDeviceType"),
         ("timeOfDay", .jfun "getCurrentTimeOfDay"),
         ("browser", .jfun "getBrowserType"),
         ("os", .jfun "getOs"),
         ("utm", .jfun "getUtm"),
         ("country", .jfun "getCountry")]

/-- Function `getFloorsConfig` from the source.  Returns `none` (= `undefined`) when
`profileConfigs` is not a non-empty plain object or when
`plugins.dynamicFloors` is not enabled with a truthy `config`; otherwise
builds the `{ floors: { ...defaultFloorConfig, ...config, data,
additionalSchemaFields } }` result.  A truthy `endpoint` property is
deleted from the page-level config first; `defaultValues` is deleted from
the plugin config after being captured; a defined plugin `skipRate` is
written onto the final floors data. -/
def getFloorsConfig (floorsData : Option JValue) (profileConfigs : Option JValue)
    (pageFloorsConfig : Option JFields) : Option JValue :=
  match profileConfigs with
  | some (.jobj pcf) =>
    if isEmptyObj pcf then none
    else
      let dfc0 := pageFloorsConfig.getD []
      let dfc := if optTruthy (getProp dfc0 "endpoint") then delProp dfc0 "endpoint"
                 else dfc0
      let dynamicFloors := jget (getProp pcf "plugins") "dynamicFloors"
      if !optTruthy (jget dynamicFloors "enabled")
          || !optTruthy (jget dynamicFloors "config") then
        none
      else
        let config := spreadFields (jget dynamicFloors "config")
        let defaultValues := spreadFields (getProp config "defaultValues")
        let templData : JValue :=
          .jobj (defaultValueTemplate ++ [("values", .jobj defaultValues)])
        let finalFloorsData0 : JValue :=
          match floorsData with
          | some .jnull => templData
          | some v => v
          | none => templData
        let config2 := delProp config "defaultValues"
        let finalFloorsData :=
          match getProp config "skipRate" with
          | some sr => setPropJ finalFloorsData0 "skipRate" sr
          | none => finalFloorsData0
        some (.jobj [("floors", .jobj (dfc ++ config2 ++
          [("data", finalFloorsData),
           ("additionalSchemaFields", additionalSchemaFields)]))])
  | _ => none

/-!
## `init`'s merge pipeline: wait budget and completion paths

Inside `_fetchConfigPromise.then(...)` the source computes the ceiling it
passes to `withTimeout` around the floor-rules promise:

```
const auctionDelay = typeof configWithTypes.auctionDelay === 'number' ? configWithTypes.auctionDelay : 0;
const maxWaitTime = Math.max(0.8 * auctionDelay, 0);
const elapsedTime = Date.now() - initTime;
const remainingTime = Math.max(maxWaitTime - elapsedTime, 0);
```

`conf.getConfig('realTimeData') || {}` and the two ambient clock reads are
made explicit arguments.
-/

/-- The `auctionDelay` the handler reads: `conf.getConfig('realTimeData')
|| {}`, then `.auctionDelay`, kept only when it is a number. -/
def readAuctionDelay (rtdConfigVal : Option JValue) : ℚ :=
  let cfg : Option JValue :=
    match rtdConfigVal with
    | some v => if truthy v then some v else some (.jobj [])
    | none => some (.jobj [])
  match jget cfg "auctionDelay" with
  | some (.jnum n) => n
  | _ => 0

/-- The `remainingTime` ceiling the merge handler passes to `withTimeout`
around the floor-rules promise (`elapsedMs` = `Date.now() - initTime`). -/
def initMergeWaitMs (rtdConfigVal : Option JValue) (elapsedMs : ℚ) : ℚ :=
  let auctionDelay := readAuctionDelay rtdConfigVal
  let maxWaitTime := max (0.8 * auctionDelay) 0
  max (maxWaitTime - elapsedMs) 0

/-- Modelled from the claim's words, for refinement comparison: the wait
"equals the auction's configured delay budget ... minus the elapsed time
since module init, clamped below at 0". -/
def claimedWaitMs (rtdConfigVal : Option JValue) (elapsedMs : ℚ) : ℚ :=
  max (readAuctionDelay rtdConfigVal - elapsedMs) 0

/-- As `claimedWaitMs`, but with the budget replaced by the 80 % share the
code actually grants (clamped below at 0 before subtracting). -/
def amendedWaitMs (rtdConfigVal : Option JValue) (elapsedMs : ℚ) : ℚ :=
  max (max (0.8 * readAuctionDelay rtdConfigVal) 0 - elapsedMs) 0

/-!
## Control-flow traces for `getBidRequestData` and `init`'s pipeline

The effectful control flow (callback invocation, one-shot gate resolution)
is embedded as an explicit path enumeration: each Boolean of a path record
selects one branch of the source (invalid request early return, the
`.then` handler's `try/catch/finally`, the `.catch` handler), and the
function emits the sequence of observable events of that path.  The model
assumes the host-supplied `callback` and the logging helpers do not
themselves throw.
-/

/-- Observable events of the module's effectful paths. -/
inductive Ev : Type where
  | logErrorEv
  | callbackEv
  | continueAuctionEv
  | mergeDeepEv
  | setConfigEv
  | gateResolveEv
  deriving DecidableEq

/-- One execution path of `getBidRequestData`: is the request object a
usable object, did the awaited gate promise reject, did `continueAuction`
throw, is `_country` set, did `mergeDeep` throw. -/
structure BidDataPath : Type where
  validReq : Bool
  gateRejects : Bool
  continueAuctionThrows : Bool
  countrySet : Bool
  mergeDeepThrows : Bool

/-- Event trace of one `getBidRequestData` invocation along a path:
invalid request → log + callback; gate rejection → `.catch` logs and calls
back; otherwise the `try { continueAuction; if (_country) mergeDeep }
catch { logError } finally { callback }` body. -/
def getBidRequestDataTrace (p : BidDataPath) : List Ev :=
  if !p.validReq then [.logErrorEv, .callbackEv]
  else if p.gateRejects then [.logErrorEv, .callbackEv]
  else
    let body : List Ev × Bool :=
      if p.continueAuctionThrows then ([.continueAuctionEv], true)
      else if p.countrySet then
        ([.continueAuctionEv, .mergeDeepEv], p.mergeDeepThrows)
      else ([.continueAuctionEv], false)
    body.1 ++ (if body.2 then [.logErrorEv] else []) ++ [.callbackEv]

/-- One completion path of the merge pipeline `init` attaches to
`_fetchConfigPromise`: did the config promise reject, did the handler body
throw while processing, did `getFloorsConfig` produce a value. -/
structure InitMergePath : Type where
  configRejects : Bool
  processingThrows : Bool
  floorsConfigSome : Bool

/-- Event trace of the merge pipeline: the `.catch` logs and resolves the
gate; the `.then` handler's `try { ...; if (floorsConfig) setConfig }
catch { logError } finally { configMerged() }`. -/
def initMergeTrace (p : InitMergePath) : List Ev :=
  if p.configRejects then [.logErrorEv, .gateResolveEv]
  else if p.processingThrows then [.logErrorEv, .gateResolveEv]
  else if p.floorsConfigSome then [.setConfigEv, .gateResolveEv]
  else [.gateResolveEv]

/-!
## Derived signal functions: `getBrowserType` and `getUtm`

Ambient browser state is an explicit environment; each read that can throw
in a browser is an `Except`.  The JS regular-expression engine is
abstracted as the environment's `regexTest` oracle over the fixed,
ordered id list of `BROWSER_REGEX_MAP` — the claims under verification
concern totality and the result set, not the individual patterns.
-/

/-- The ordered ids of `BROWSER_REGEX_MAP` (first match wins). -/
def BROWSER_REGEX_MAP_IDS : List Nat := [1, 2, 3, 4, 5, 6, 7, 8, 9, 10, 11, 12]

/-- Ambient state read by `getBrowserType`: the low-entropy SUA brand list
(`none` = no SUA / no browsers array), `navigator?.userAgent`, and the
regex engine. -/
structure BrowserEnv : Type where
  sua : Except String (Option (List String))
  userAgent : Except String (Option String)
  regexTest : Nat → String → Bool

/-- The un-memoized body of `getBrowserType`: try the SUA brand string
first, then the user agent, falling back to `"0"`; a throw from either
ambient read lands in the one `catch`, which returns `"0"`. -/
def computeBrowserType (env : BrowserEnv) : String :=
  match env.sua with
  | .error _ => "0"
  | .ok brands =>
    let brandName : String :=
      match brands with
      | some bs => " ".intercalate (bs.map String.toLower)
      | none => ""
    let fromSua : Option Nat :=
      if brandName ≠ "" then
        BROWSER_REGEX_MAP_IDS.find? (fun i => env.regexTest i brandName)
      else none
    match fromSua with
    | some id => toString id
    | none =>
      match env.userAgent with
      | .error _ => "0"
      | .ok none => "0"
      | .ok (some u) =>
        if u = "" then "0"
        else
          match BROWSER_REGEX_MAP_IDS.find? (fun i => env.regexTest i u) with
          | some id => toString id
          | none => "0"

/-- Function `getBrowserType` with its module-level memo cell made explicit. -/
def getBrowserType (cachedBrowserType : Option String) (env : BrowserEnv) :
    String :=
  match cachedBrowserType with
  | some s => s
  | none => computeBrowserType env

/-- Ambient state read by `getUtm`: `window.location?.href` (the read may
throw), URL parsing (`new URL(href).search`, throws on an invalid URL) and
`new URLSearchParams(search).toString()` serialization. -/
structure UtmEnv : Type where
  locationHref : Except String (Option String)
  parseSearch : String → Except String String
  serializeParams : String → String

/-- Substring test `s.includes('utm_')`. -/
def containsUtmSub (s : String) : Bool := (s.splitOn "utm_").length > 1

/-- The un-memoized body of `getUtm`: `'1'` when the serialized query
parameters contain `utm_`, `'0'` otherwise, and `'0'` on any throw
(including `new URL('')` on a missing/empty href). -/
def computeUtm (env : UtmEnv) : String :=
  match env.locationHref with
  | .error _ => "0"
  | .ok href0 =>
    match env.parseSearch (href0.getD "") with
    | .error _ => "0"
    | .ok search =>
      if containsUtmSub (env.serializeParams search) then "1" else "0"

/-- Function `getUtm` with its module-level memo cell made explicit. -/
def getUtm (cachedUtmValue : Option String) (env : UtmEnv) : String :=
  match cachedUtmValue with
  | some s => s
  | none => computeUtm env

/-!
## Helper definitions for stating the claims
-/

/-- The wrapped promise settles strictly after the `ms` ceiling (or never
settles): the timeout fires first. -/
def timeoutFirst {T : Type} (p : JSPromise T) (ms : Int) : Prop :=
  match p with
  | .pending => True
  | .settled t _ => ms < (t : Int)

/-- The floors-data payload `getFloorsConfig` places under `data` (the
`finalFloorsData` local): the fetched data, or the default-value template
when the fetch produced nothing, with a defined plugin `skipRate` written
onto it. -/
def finalData (floorsData : Option JValue) (cf : JFields) : JValue :=
  let defaultValues := spreadFields (getProp cf "defaultValues")
  let templData : JValue :=
    .jobj (defaultValueTemplate ++ [("values", .jobj defaultValues)])
  let base : JValue :=
    match floorsData with
    | some .jnull => templData
    | some v => v
    | none => templData
  match getProp cf "skipRate" with
  | some sr => setPropJ base "skipRate" sr
  | none => base

/-- The failure conditions C5 lists for the profile-configuration
argument: missing, not a plain object, empty, `plugins.dynamicFloors`
absent, `enabled` false, or no `config` sub-object. -/
def badProfile (pc : Option JValue) : Prop :=
  pc = none ∨
  (∃ v, pc = some v ∧ isPlainObjectJ (some v) = false) ∨
  pc = some (.jobj []) ∨
  (∃ fs, pc = some (.jobj fs) ∧
    (jget (getProp fs "plugins") "dynamicFloors" = none ∨
     jget (jget (getProp fs "plugins") "dynamicFloors") "enabled"
       = some (.jbool false) ∨
     jget (jget (getProp fs "plugins") "dynamicFloors") "config" = none))

/-- Every string `getBrowserType` can produce: a browser id in decimal, or
the `"0"` fallback. -/
def browserResultSet : List String := "0" :: BROWSER_REGEX_MAP_IDS.map toString

-- Lookup lemmas for the merged `floors` object
-- `pageFields ++ pluginFields ++ [("data", D), ("additionalSchemaFields", A)]`.

theorem getProp_floorsOut (x y : JFields) (D A : JValue) (k : String)
    (hk1 : k ≠ "data") (hk2 : k ≠ "additionalSchemaFields") :
    getProp (x ++ y ++ [("data", D), ("additionalSchemaFields", A)]) k
      = ((getProp y k).or (getProp x k)) := by
  have e : ([("data", D), ("additionalSchemaFields", A)] : JFields)
      = [("data", D)] ++ [("additionalSchemaFields", A)] := rfl
  rw [getProp_append, getProp_append, e, getProp_append]
  have h1 : getProp [("data", D)] k = none := by
    have : ("data" == k) = false := by
      rw [beq_eq_false_iff_ne]; exact fun h => hk1 h.symm
    simp [getProp, this]
  have h2 : getProp [("additionalSchemaFields", A)] k = none := by
    have : ("additionalSchemaFields" == k) = false := by
      rw [beq_eq_false_iff_ne]; exact fun h => hk2 h.symm
    simp [getProp, this]
  rw [h1, h2]
  rfl

theorem getProp_floorsOut_data (x y : JFields) (D A : JValue) :
    getProp (x ++ y ++ [("data", D), ("additionalSchemaFields", A)]) "data"
      = some D := by
  have e : ([("data", D), ("additionalSchemaFields", A)] : JFields)
      = [("data", D)] ++ [("additionalSchemaFields", A)] := rfl
  rw [getProp_append, getProp_append, e, getProp_append]
  have h1 : getProp [("data", D)] "data" = some D := by simp [getProp]
  have h2 : getProp [("additionalSchemaFields", A)] "data" = none := by
    simp [getProp]
  rw [h1, h2]
  rfl

/-- Unfolding of `getFloorsConfig` on the success path: non-empty plain
profile object, enabled plugin with an object `config`. -/
theorem getFloorsConfig_success (floorsData : Option JValue)
    (pageCfg : Option JFields) (pcf plf dff cf : JFields) (ev : JValue)
    (hne : isEmptyObj pcf = false)
    (hpl : getProp pcf "plugins" = some (.jobj plf))
    (hdf : getProp plf "dynamicFloors" = some (.jobj dff))
    (hen : getProp dff "enabled" = some ev) (hent : truthy ev = true)
    (hcf : getProp dff "config" = some (.jobj cf)) :
    getFloorsConfig floorsData (some (.jobj pcf)) pageCfg
      = some (.jobj [("floors", .jobj (
          (if optTruthy (getProp (pageCfg.getD []) "endpoint") then
            delProp (pageCfg.getD []) "endpoint"
           else pageCfg.getD []) ++
          delProp cf "defaultValues" ++
          [("data", finalData floorsData cf),
           ("additionalSchemaFields", additionalSchemaFields)]))]) := by
  simp only [getFloorsConfig, hne, jget, hpl, hdf, hen, hcf, optTruthy, hent,
    Bool.not_true, Bool.false_or, Bool.not_false, Bool.or_self,
    if_false, Bool.false_eq_true, spreadFields, finalData]
  simp [truthy]

/-- C9: for every local hour in 0..23, `getCurrentTimeOfDay` buckets hours
below 5 and at/above 19 to `night`, 5..11 to `morning`, 12..16 to
`afternoon`, 17..18 to `evening`; in particular 4 → night, 9 → morning,
15 → afternoon, 18 → evening, 20 → night. -/
theorem claim_C9_time_of_day :
    (∀ h : Nat, h < 24 →
      (((h < 5 ∨ 19 ≤ h) → getCurrentTimeOfDay h = "night") ∧
       ((5 ≤ h ∧ h ≤ 11) → getCurrentTimeOfDay h = "morning") ∧
       ((12 ≤ h ∧ h ≤ 16) → getCurrentTimeOfDay h = "afternoon") ∧
       ((17 ≤ h ∧ h ≤ 18) → getCurrentTimeOfDay h = "evening"))) ∧
    getCurrentTimeOfDay 4 = "night" ∧ getCurrentTimeOfDay 9 = "morning" ∧
    getCurrentTimeOfDay 15 = "afternoon" ∧ getCurrentTimeOfDay 18 = "evening" ∧
    getCurrentTimeOfDay 20 = "night" := by
  refine ⟨?_, rfl, rfl, rfl, rfl, rfl⟩
  decide

/-- Witness for C9 at hour 4. -/
theorem claim_C9_time_of_day_witness : getCurrentTimeOfDay 4 = "night" :=
  (claim_C9_time_of_day.1 4 (by decide)).1 (Or.inl (by decide))

/-- C8: `fetchData` (default budget: 2 retries, i.e. 3 attempts, 1000 ms
between attempts) resolves to the successful JSON payload when the first
two attempts fail and the third succeeds, and resolves to `undefined`
after exhausting the budget when every attempt fails; both outcomes are
plain resolutions — the model is a total function, mirroring the source's
catch-all that never rejects. -/
theorem claim_C8_fetch_retry (oracle : Nat → FetchOutcome) (v : JValue) :
    (oracle 0 = .failure → oracle 1 = .failure → oracle 2 = .success v →
      fetchData oracle 0 2 = ⟨some v, 3, 2000⟩) ∧
    ((∀ i, oracle i = .failure) → fetchData oracle 0 2 = ⟨none, 3, 2000⟩) := by
  constructor
  · intro h0 h1 h2
    simp [fetchData, h0, h1, h2]
  · intro hall
    simp [fetchData, hall 0, hall 1, hall 2]

/-- Witness for C8: a concrete fail-fail-succeed oracle and an always-fail
oracle. -/
theorem claim_C8_fetch_retry_witness :
    fetchData (fun i => if i < 2 then .failure else .success (.jstr "ok")) 0 2
      = ⟨some (.jstr "ok"), 3, 2000⟩ ∧
    fetchData (fun _ => .failure) 0 2 = ⟨none, 3, 2000⟩ :=
  ⟨(claim_C8_fetch_retry (fun i => if i < 2 then .failure else .success (.jstr "ok"))
      (.jstr "ok")).1 rfl rfl rfl,
   (claim_C8_fetch_retry (fun _ => .failure) (.jstr "ok")).2 (fun _ => rfl)⟩

/-- C2: `withTimeout` returns the original promise unmodified when
`ms ≤ 0`; when `ms > 0` it resolves to the wrapped promise's value when
that promise resolves strictly before the ceiling, and to the `undefined`
sentinel when the timeout fires first. -/
theorem claim_C2_withTimeout_race {T : Type} (p : JSPromise T) (ms : Int)
    (t : Nat) (v : T) :
    (ms ≤ 0 → withTimeout p ms = .original p) ∧
    (0 < ms → p = .settled t (.resolved v) → (t : Int) < ms →
      withTimeout p ms = .wrapped (.settled t (.resolved (some v)))) ∧
    (0 < ms → timeoutFirst p ms →
      withTimeout p ms = .wrapped (.settled ms.toNat (.resolved none))) := by
  refine ⟨?_, ?_, ?_⟩
  · intro hms
    simp [withTimeout, hms]
  · intro hms hp ht
    subst hp
    simp [withTimeout, not_le.mpr hms, ht]
  · intro hms htf
    match p with
    | .pending => simp [withTimeout, not_le.mpr hms]
    | .settled t' o =>
      have h' : ¬((t' : Int) < ms) := not_lt.mpr (le_of_lt htf)
      simp [withTimeout, not_le.mpr hms, h']

/-- Witness for C2 at concrete promises: `ms = 0` keeps the original,
a resolution at 3 beats a ceiling of 10, and a resolution at 20 loses to
it. -/
theorem claim_C2_withTimeout_race_witness :
    withTimeout (JSPromise.settled 3 (Settled.resolved (7 : Nat))) 0
      = .original (JSPromise.settled 3 (Settled.resolved 7)) ∧
    withTimeout (JSPromise.settled 3 (Settled.resolved (7 : Nat))) 10
      = .wrapped (.settled 3 (.resolved (some 7))) ∧
    withTimeout (JSPromise.settled 20 (Settled.resolved (7 : Nat))) 10
      = .wrapped (.settled 10 (.resolved none)) :=
  ⟨(claim_C2_withTimeout_race (JSPromise.settled 3 (Settled.resolved 7)) 0 3 7).1
      (by decide),
   (claim_C2_withTimeout_race (JSPromise.settled 3 (Settled.resolved 7)) 10 3 7).2.1
      (by decide) rfl (by decide),
   (claim_C2_withTimeout_race (JSPromise.settled 20 (Settled.resolved 7)) 10 3 7).2.2
      (by decide) (show (10 : Int) < (20 : Nat) by decide)⟩

/-- C3 counterexample: for `ms = 0` the source returns the original
promise before installing any handler, so a rejected promise is handed
back rejected — the claim's "for every milliseconds value" fails at
`ms ≤ 0`. -/
theorem claim_C3_cex :
    (withTimeout (JSPromise.settled 5 (Settled.rejected "boom") : JSPromise Nat) 0).isRejection
      = true := rfl

/-- C3 amended: for every positive ceiling, a rejection of the wrapped
promise is never propagated — `withTimeout` hands back a promise that
resolves the `undefined` sentinel (the race's `.catch` when the rejection
wins, the timer when it does not). -/
theorem claim_C3_reject_to_sentinel {T : Type} (p : JSPromise T) (ms : Int)
    (t : Nat) (e : String) :
    0 < ms → p = .settled t (.rejected e) →
      (withTimeout p ms).isRejection = false ∧
      ∃ t', withTimeout p ms = .wrapped (.settled t' (.resolved none)) := by
  intro hms hp
  subst hp
  by_cases ht : (t : Int) < ms
  · constructor
    · simp [withTimeout, not_le.mpr hms, ht, TimeoutResult.isRejection]
    · exact ⟨t, by simp [withTimeout, not_le.mpr hms, ht]⟩
  · constructor
    · simp [withTimeout, not_le.mpr hms, ht, TimeoutResult.isRejection]
    · exact ⟨ms.toNat, by simp [withTimeout, not_le.mpr hms, ht]⟩

/-- Witness for the amended C3: a rejection at time 5 under a ceiling of
100 comes back as a resolved `undefined` sentinel. -/
theorem claim_C3_reject_to_sentinel_witness :
    (withTimeout (JSPromise.settled 5 (Settled.rejected "boom") : JSPromise Nat) 100).isRejection
        = false ∧
      ∃ t', withTimeout (JSPromise.settled 5 (Settled.rejected "boom") : JSPromise Nat) 100
        = .wrapped (.settled t' (.resolved none)) :=
  claim_C3_reject_to_sentinel (JSPromise.settled 5 (Settled.rejected "boom")) 100 5 "boom"
    (by decide) rfl

theorem jget_floors (X : JValue) :
    jget (some (.jobj [("floors", X)])) "floors" = some X := by
  simp [jget, getProp]

theorem finalData_obj (fd cf : JFields) :
    finalData (some (.jobj fd)) cf =
      match getProp cf "skipRate" with
      | some sr => .jobj (fd ++ [("skipRate", sr)])
      | none => .jobj fd := by
  unfold finalData setPropJ
  cases getProp cf "skipRate" <;> rfl

/-- C5: `getFloorsConfig` fails closed — it returns `undefined` for every
floors-data argument whenever the profile configuration is missing, not a
plain object, or empty, or `plugins.dynamicFloors` is absent, disabled, or
lacks its `config` sub-object. -/
theorem claim_C5_fail_closed (floorsData : Option JValue)
    (pageCfg : Option JFields) (pc : Option JValue) (h : badProfile pc) :
    getFloorsConfig floorsData pc pageCfg = none := by
  rcases h with rfl | ⟨v, rfl, hv⟩ | rfl | ⟨fs, rfl, hcond⟩
  · rfl
  · cases v <;> simp_all [isPlainObjectJ, getFloorsConfig]
  · simp [getFloorsConfig, isEmptyObj]
  · unfold getFloorsConfig
    rcases hcond with hd | he | hc
    · unfold jget at hd ⊢
      simp [hd, optTruthy]
    · unfold jget at he ⊢
      simp [he, optTruthy, truthy]
    · unfold jget at hc ⊢
      simp [hc, optTruthy]

/-- Witness for C5: a profile object whose `plugins` object has no
`dynamicFloors` key yields `undefined`. -/
theorem claim_C5_fail_closed_witness :
    getFloorsConfig none (some (.jobj [("plugins", .jobj [])])) none = none :=
  claim_C5_fail_closed none none (some (.jobj [("plugins", .jobj [])]))
    (Or.inr (Or.inr (Or.inr ⟨[("plugins", .jobj [])], rfl, Or.inl rfl⟩)))

/-- C6: with fetched floors data and an enabled plugin, a `skipRate`
defined in the plugin's `config` overrides the fetched `skipRate` in the
output's `data` payload; with no plugin `skipRate`, the fetched value is
kept. -/
theorem claim_C6_skipRate_override (pageCfg : Option JFields)
    (pcf plf dff cf fd : JFields) (ev : JValue)
    (hne : isEmptyObj pcf = false)
    (hpl : getProp pcf "plugins" = some (.jobj plf))
    (hdf : getProp plf "dynamicFloors" = some (.jobj dff))
    (hen : getProp dff "enabled" = some ev) (hent : truthy ev = true)
    (hcf : getProp dff "config" = some (.jobj cf)) :
    (∀ sr, getProp cf "skipRate" = some sr →
      jget (jget (jget (getFloorsConfig (some (.jobj fd)) (some (.jobj pcf))
        pageCfg) "floors") "data") "skipRate" = some sr) ∧
    (getProp cf "skipRate" = none →
      jget (jget (jget (getFloorsConfig (some (.jobj fd)) (some (.jobj pcf))
        pageCfg) "floors") "data") "skipRate" = getProp fd "skipRate") := by
  have hs := getFloorsConfig_success (some (.jobj fd)) pageCfg pcf plf dff cf ev
    hne hpl hdf hen hent hcf
  constructor
  · intro sr hsr
    rw [hs, jget_floors]
    simp only [jget, getProp_floorsOut_data, finalData_obj, hsr]
    exact getProp_singleton_append fd "skipRate" sr
  · intro hsr
    rw [hs, jget_floors]
    simp only [jget, getProp_floorsOut_data, finalData_obj, hsr]

/-- Witness for C6: a plugin `skipRate` of 5 overrides a fetched
`skipRate` of 99. -/
theorem claim_C6_skipRate_override_witness :
    jget (jget (jget (getFloorsConfig (some (.jobj [("skipRate", .jnum 99)]))
      (some (.jobj [("plugins", .jobj [("dynamicFloors", .jobj
        [("enabled", .jbool true),
         ("config", .jobj [("skipRate", .jnum 5)])])])]))
      none) "floors") "data") "skipRate" = some (.jnum 5) :=
  (claim_C6_skipRate_override none
    [("plugins", .jobj [("dynamicFloors", .jobj
      [("enabled", .jbool true), ("config", .jobj [("skipRate", .jnum 5)])])])]
    [("dynamicFloors", .jobj
      [("enabled", .jbool true), ("config", .jobj [("skipRate", .jnum 5)])])]
    [("enabled", .jbool true), ("config", .jobj [("skipRate", .jnum 5)])]
    [("skipRate", .jnum 5)]
    [("skipRate", .jnum 99)]
    (.jbool true) rfl rfl rfl rfl rfl rfl).1 (.jnum 5) rfl

/-- C7 counterexample: with a page-level floor config
`{ endpoint: "", defaultValues: 1 }` and an enabled plugin whose config is
`{ defaultValues: 2 }`, the output's `floors` object still carries the
page-level `endpoint` (the source deletes `endpoint` only when truthy) and
carries the page-level `defaultValues`, not the plugin's (the source
deletes `defaultValues` from the plugin config before spreading), so
neither "the page-level endpoint field never appears" nor "any key present
in both takes the plugin's value" holds as stated. -/
theorem claim_C7_merge_order_cex :
    jget (jget (getFloorsConfig (some (.jobj [("currency", .jstr "USD")]))
        (some (.jobj [("plugins", .jobj [("dynamicFloors", .jobj
          [("enabled", .jbool true),
           ("config", .jobj [("defaultValues", .jnum 2)])])])]))
        (some [("endpoint", .jstr ""), ("defaultValues", .jnum 1)]))
       "floors") "endpoint" = some (.jstr "") ∧
    jget (jget (getFloorsConfig (some (.jobj [("currency", .jstr "USD")]))
        (some (.jobj [("plugins", .jobj [("dynamicFloors", .jobj
          [("enabled", .jbool true),
           ("config", .jobj [("defaultValues", .jnum 2)])])])]))
        (some [("endpoint", .jstr ""), ("defaultValues", .jnum 1)]))
       "floors") "defaultValues" = some (.jnum 1) := by
  constructor <;> rfl

/-- C7 amended: whenever `getFloorsConfig` returns a value, its `floors`
object is the later-wins composition of the page-level floor config (with
a truthy `endpoint` removed), then the plugin config (with `defaultValues`
removed), then the forced `data` and `additionalSchemaFields` entries; any
key other than `defaultValues`, `data` and `additionalSchemaFields` that
the plugin config defines takes the plugin's value, and a truthy
page-level `endpoint` appears in the output only if the plugin config
itself defines `endpoint`. -/
theorem claim_C7_merge_order (floorsData : Option JValue)
    (pageCfg : Option JFields) (pcf plf dff cf : JFields) (ev : JValue)
    (hne : isEmptyObj pcf = false)
    (hpl : getProp pcf "plugins" = some (.jobj plf))
    (hdf : getProp plf "dynamicFloors" = some (.jobj dff))
    (hen : getProp dff "enabled" = some ev) (hent : truthy ev = true)
    (hcf : getProp dff "config" = some (.jobj cf)) :
    getFloorsConfig floorsData (some (.jobj pcf)) pageCfg
      = some (.jobj [("floors", .jobj (
          (if optTruthy (getProp (pageCfg.getD []) "endpoint") then
            delProp (pageCfg.getD []) "endpoint"
           else pageCfg.getD []) ++
          delProp cf "defaultValues" ++
          [("data", finalData floorsData cf),
           ("additionalSchemaFields", additionalSchemaFields)]))]) ∧
    (∀ k v, k ≠ "defaultValues" → k ≠ "data" → k ≠ "additionalSchemaFields" →
      getProp cf k = some v →
      jget (jget (getFloorsConfig floorsData (some (.jobj pcf)) pageCfg)
        "floors") k = some v) ∧
    (optTruthy (getProp (pageCfg.getD []) "endpoint") = true →
      getProp cf "endpoint" = none →
      jget (jget (getFloorsConfig floorsData (some (.jobj pcf)) pageCfg)
        "floors") "endpoint" = none) := by
  have hs := getFloorsConfig_success floorsData pageCfg pcf plf dff cf ev
    hne hpl hdf hen hent hcf
  refine ⟨hs, ?_, ?_⟩
  · intro k v hk1 hk2 hk3 hkv
    rw [hs, jget_floors]
    simp only [jget]
    rw [getProp_floorsOut _ _ _ _ _ hk2 hk3,
      getProp_delProp_ne cf "defaultValues" k hk1, hkv]
    rfl
  · intro hep hcfep
    rw [hs, jget_floors, hep]
    simp only [jget, if_true]
    rw [getProp_floorsOut _ _ _ _ _ (by decide) (by decide),
      getProp_delProp_ne cf "defaultValues" "endpoint" (by decide), hcfep,
      getProp_delProp_self]
    rfl

/-- Witness for the amended C7: a shared key `k1` takes the plugin's
value, and the truthy page-level `endpoint` is dropped. -/
theorem claim_C7_merge_order_witness :
    jget (jget (getFloorsConfig none
        (some (.jobj [("plugins", .jobj [("dynamicFloors", .jobj
          [("enabled", .jbool true), ("config", .jobj [("k1", .jnum 2)])])])]))
        (some [("endpoint", .jstr "https://x"), ("k1", .jnum 1)]))
       "floors") "k1" = some (.jnum 2) ∧
    jget (jget (getFloorsConfig none
        (some (.jobj [("plugins", .jobj [("dynamicFloors", .jobj
          [("enabled", .jbool true), ("config", .jobj [("k1", .jnum 2)])])])]))
        (some [("endpoint", .jstr "https://x"), ("k1", .jnum 1)]))
       "floors") "endpoint" = none :=
  ⟨(claim_C7_merge_order none
      (some [("endpoint", .jstr "https://x"), ("k1", .jnum 1)])
      [("plugins", .jobj [("dynamicFloors", .jobj
        [("enabled", .jbool true), ("config", .jobj [("k1", .jnum 2)])])])]
      [("dynamicFloors", .jobj
        [("enabled", .jbool true), ("config", .jobj [("k1", .jnum 2)])])]
      [("enabled", .jbool true), ("config", .jobj [("k1", .jnum 2)])]
      [("k1", .jnum 2)]
      (.jbool true) rfl rfl rfl rfl rfl rfl).2.1 "k1" (.jnum 2)
      (by decide) (by decide) (by decide) rfl,
   (claim_C7_merge_order none
      (some [("endpoint", .jstr "https://x"), ("k1", .jnum 1)])
      [("plugins", .jobj [("dynamicFloors", .jobj
        [("enabled", .jbool true), ("config", .jobj [("k1", .jnum 2)])])])]
      [("dynamicFloors", .jobj
        [("enabled", .jbool true), ("config", .jobj [("k1", .jnum 2)])])]
      [("enabled", .jbool true), ("config", .jobj [("k1", .jnum 2)])]
      [("k1", .jnum 2)]
      (.jbool true) rfl rfl rfl rfl rfl rfl).2.2 rfl rfl⟩

/-- C4 counterexample: with `realTimeData.auctionDelay = 100` and no time
elapsed, the handler's ceiling is `Math.max(0.8 * 100, 0) - 0 = 80`, not
the full delay budget `100` the claim states. -/
theorem claim_C4_wait_budget_cex :
    initMergeWaitMs (some (.jobj [("auctionDelay", .jnum 100)])) 0 = 80 ∧
    claimedWaitMs (some (.jobj [("auctionDelay", .jnum 100)])) 0 = 100 := by
  constructor <;>
    norm_num [initMergeWaitMs, claimedWaitMs, readAuctionDelay, jget, getProp,
      truthy]

/-- C4 amended: the ceiling passed to the timeout race equals 80 % of the
configured delay budget (`realTimeData.auctionDelay`, treated as 0 when
absent or non-numeric), clamped below at 0, minus the elapsed time since
module init, clamped below at 0; it is never negative and (for
non-negative elapsed time) never exceeds the clamped 80 % share. -/
theorem claim_C4_wait_budget (rtdConfigVal : Option JValue) (elapsedMs : ℚ) :
    initMergeWaitMs rtdConfigVal elapsedMs = amendedWaitMs rtdConfigVal elapsedMs ∧
    0 ≤ initMergeWaitMs rtdConfigVal elapsedMs ∧
    (0 ≤ elapsedMs →
      initMergeWaitMs rtdConfigVal elapsedMs
        ≤ max (0.8 * readAuctionDelay rtdConfigVal) 0) ∧
    readAuctionDelay none = 0 ∧
    (∀ s, readAuctionDelay (some (.jobj [("auctionDelay", .jstr s)])) = 0) := by
  refine ⟨rfl, le_max_right _ _, ?_, rfl, fun s => rfl⟩
  intro he
  exact max_le (sub_le_self _ he) (le_max_right _ _)

/-- Witness for the amended C4 at `auctionDelay = 50`, elapsed 10 ms. -/
theorem claim_C4_wait_budget_witness :
    initMergeWaitMs (some (.jobj [("auctionDelay", .jnum 50)])) 10
      = amendedWaitMs (some (.jobj [("auctionDelay", .jnum 50)])) 10 ∧
    initMergeWaitMs (some (.jobj [("auctionDelay", .jnum 50)])) 10
      ≤ max (0.8 * readAuctionDelay (some (.jobj [("auctionDelay", .jnum 50)]))) 0 :=
  ⟨(claim_C4_wait_budget (some (.jobj [("auctionDelay", .jnum 50)])) 10).1,
   (claim_C4_wait_budget (some (.jobj [("auctionDelay", .jnum 50)])) 10).2.2.1
     (by norm_num)⟩

/-- C1: along every path of `getBidRequestData` (invalid request object,
gate resolution with the enrichment body succeeding or throwing, with or
without a country to merge, gate rejection) the host callback is invoked
exactly once, and along every completion path of `init`'s merge pipeline
(successful merge, no config to set, processing error, config-fetch
rejection) the one-shot gate `configMerged` is resolved exactly once. -/
theorem claim_C1_callback_and_gate_once :
    (∀ p : BidDataPath, (getBidRequestDataTrace p).count Ev.callbackEv = 1) ∧
    (∀ q : InitMergePath, (initMergeTrace q).count Ev.gateResolveEv = 1) := by
  constructor
  · rintro ⟨v, g, c, s, m⟩
    cases v <;> cases g <;> cases c <;> cases s <;> cases m <;> rfl
  · rintro ⟨a, b, c⟩
    cases a <;> cases b <;> cases c <;> rfl

theorem toString_mem_browserResultSet {id : Nat}
    (h : id ∈ BROWSER_REGEX_MAP_IDS) : toString id ∈ browserResultSet :=
  List.mem_cons_of_mem _ (List.mem_map_of_mem _ h)

theorem computeBrowserType_mem (env : BrowserEnv) :
    computeBrowserType env ∈ browserResultSet := by
  unfold computeBrowserType
  split
  · exact List.mem_cons_self _ _
  · dsimp only
    split
    · next id heq =>
      split at heq
      · exact toString_mem_browserResultSet (List.mem_of_find?_eq_some heq)
      · exact absurd heq (by simp)
    · split
      · exact List.mem_cons_self _ _
      · exact List.mem_cons_self _ _
      · split
        · exact List.mem_cons_self _ _
        · split
          · next id heq =>
            exact toString_mem_browserResultSet (List.mem_of_find?_eq_some heq)
          · exact List.mem_cons_self _ _


theorem computeUtm_mem (env : UtmEnv) :
    computeUtm env ∈ (["0", "1"] : List String) := by
  unfold computeUtm
  split
  · simp
  · split
    · simp
    · split <;> simp

/-- C10: `getBrowserType` and `getUtm` are total over every ambient
browser state — including states where the SUA read, `navigator.userAgent`
or `window.location` throws — and always return a string from the fixed
result set (a browser id in decimal or the `"0"` fallback; `"1"`/`"0"` for
UTM); a throwing ambient read makes the un-memoized body return `"0"`. -/
theorem claim_C10_signals_total (cacheB cacheU : Option String)
    (envB : BrowserEnv) (envU : UtmEnv) (e₁ e₂ : String) :
    ((∀ s, cacheB = some s → s ∈ browserResultSet) →
      getBrowserType cacheB envB ∈ browserResultSet) ∧
    ((∀ s, cacheU = some s → s ∈ (["0", "1"] : List String)) →
      getUtm cacheU envU ∈ (["0", "1"] : List String)) ∧
    (envB.sua = .error e₁ → computeBrowserType envB = "0") ∧
    (envU.locationHref = .error e₂ → computeUtm envU = "0") := by
  refine ⟨?_, ?_, ?_, ?_⟩
  · intro hc
    match cacheB with
    | some s => exact hc s rfl
    | none => exact computeBrowserType_mem envB
  · intro hc
    match cacheU with
    | some s => exact hc s rfl
    | none => exact computeUtm_mem envU
  · intro herr
    unfold computeBrowserType
    rw [herr]
  · intro herr
    unfold computeUtm
    rw [herr]

/-- Witness for C10: empty caches with a no-data environment, and
environments whose ambient reads throw. -/
theorem claim_C10_signals_total_witness :
    getBrowserType none ⟨.ok none, .ok none, fun _ _ => false⟩
      ∈ browserResultSet ∧
    getUtm none ⟨.ok (some "x"), fun _ => .error "invalid URL", fun s => s⟩
      ∈ (["0", "1"] : List String) ∧
    computeBrowserType ⟨.error "boom", .ok none, fun _ _ => false⟩ = "0" ∧
    computeUtm ⟨.error "boom", fun _ => .ok "", fun s => s⟩ = "0" :=
  ⟨(claim_C10_signals_total none none
      ⟨.ok none, .ok none, fun _ _ => false⟩
      ⟨.ok (some "x"), fun _ => .error "invalid URL", fun s => s⟩ "" "").1
      (fun _ h => Option.noConfusion h),
   (claim_C10_signals_total none none
      ⟨.ok none, .ok none, fun _ _ => false⟩
      ⟨.ok (some "x"), fun _ => .error "invalid URL", fun s => s⟩ "" "").2.1
      (fun _ h => Option.noConfusion h),
   (claim_C10_signals_total none none
      ⟨.error "boom", .ok none, fun _ _ => false⟩
      ⟨.error "boom", fun _ => .ok "", fun s => s⟩ "boom" "boom").2.2.1 rfl,
   (claim_C10_signals_total none none
      ⟨.error "boom", .ok none, fun _ _ => false⟩
      ⟨.error "boom", fun _ => .ok "", fun s => s⟩ "boom" "boom").2.2.2 rfl⟩

end PubmaticRtd
